import Mathlib

/- Verification of the ESP32 speaker MP3 streaming core: a shallow embedding of the
   streaming decoder loop in MP3Decoder.cpp (processStreamFrame, fillStreamBuffer,
   startStreaming, stopStreaming, getFileInfo) and of the playback session in
   MP3Player.cpp (playFileWithProgress, streamingCallback, applyVolume, stop).
   The external Helix codec library is not part of this repository; it is modelled
   through the interface the code uses (MP3FindSyncWord, MP3GetNextFrameInfo,
   MP3Decode), with the sync search made concrete and the other two abstract. -/

namespace ESP32Speaker

/-- STREAM_BUFFER_SIZE in MP3Decoder.h: capacity of the streaming byte window. -/
def STREAM_BUFFER_SIZE : Nat := 8192

/-- INPUT_BUFFER_SIZE in MP3Decoder.h: low-data threshold used at the end of
processStreamFrame. -/
def INPUT_BUFFER_SIZE : Nat := 2048

/-- MP3Decoder::MP3Info. -/
structure MP3Info where
  sampleRate : Int
  channels : Int
  bitRate : Int
  duration : Int
  valid : Bool
deriving DecidableEq

/-- The fields of the Helix MP3FrameInfo that the streaming code reads. -/
structure MP3FrameInfo where
  samprate : Int
  nChans : Int
  bitrate : Int
  outputSamps : Nat
deriving DecidableEq

/-- Modelled from the spec: outcome of one MP3Decode call of the external codec.
The Codec contract gives decodeOne the shape (DecodeOutcome, bytesConsumed,
pcmBlock) with DecodeOutcome in Ok, Underflow, Error; the code observes the
consumption through the readPtr/bytesLeft pointers it passes in. Underflow is
modelled as consuming nothing (the spec: do not advance the cursor on underflow). -/
inductive DecodeResult where
  | ok (consumed : Nat) (pcm : List Int)
  | underflow
  | err (consumed : Nat)
deriving DecidableEq

/-- Modelled from the spec: the external codec capability (MP3GetNextFrameInfo and
MP3Decode of the Helix library, which is not part of this repository). Both take
the byte window starting at the current read position; getFrameInfo consumes
nothing and reports metadata or an error (none); decode returns a DecodeResult. -/
structure Codec where
  getFrameInfo : List Nat → Option MP3FrameInfo
  decode : List Nat → DecodeResult

/-- Modelled from the spec: the two-byte MP3 frame sync pattern the external
MP3FindSyncWord locates - a 0xFF byte followed by a byte with its top three bits
set (mask 0xE0). -/
def syncPair (a b : Nat) : Bool := a == 255 && (b &&& 224) == 224

/-- Modelled from the spec: MP3FindSyncWord of the external codec - the offset of
the first position whose two bytes form a sync pattern, none when no complete
pattern lies inside the window. -/
def findSyncWord : List Nat → Option Nat
  | a :: b :: rest =>
      if syncPair a b then some 0
      else (findSyncWord (b :: rest)).map (fun k => k + 1)
  | _ => none

/-- The streaming state of MP3Decoder: window models the unread bytes
[readPtr, readPtr + bytesLeft), cursor models readPtr - streamBuffer, source
models the bytes of the stream file not yet read into the buffer, and info
models the _streamInfo member. -/
structure StreamState where
  window : List Nat
  cursor : Nat
  source : List Nat
  firstFrame : Bool
  info : MP3Info
  streaming : Bool
deriving DecidableEq

/-- MP3Decoder::fillStreamBuffer. Returns false (no data added) when the file has
no more bytes, before touching any state; otherwise compacts (memmove of the
unread bytes to offset 0, readPtr reset to the buffer start), reads into the
free space, and returns false if the read added nothing. -/
def fillStreamBuffer (s : StreamState) : Bool × StreamState :=
  if s.source = [] then (false, s)
  else
    let compacted : StreamState := { s with cursor := 0 }
    let spaceLeft := STREAM_BUFFER_SIZE - compacted.window.length
    let n := min spaceLeft compacted.source.length
    if n = 0 then (false, compacted)
    else (true, { compacted with
                    window := compacted.window ++ compacted.source.take n,
                    source := compacted.source.drop n })

/-- MP3Decoder::stopStreaming: clears the streaming flag, closes the file and
frees the buffer (window, cursor and source are gone), leaves _streamInfo and
_firstFrame untouched. -/
def stopStreaming (s : StreamState) : StreamState :=
  if s.streaming then
    { s with streaming := false, window := [], cursor := 0, source := [] }
  else s

/-- MP3Decoder::getFileInfo: reads the first min(fileSize, 4096) bytes, finds the
first sync word, queries the codec for frame info, and derives a duration
estimate (fileSize * 8) / bitrate. -/
def getFileInfo (c : Codec) (src : List Nat) : Option MP3Info :=
  if src.length = 0 then none
  else
    let buf := src.take 4096
    match findSyncWord buf with
    | none => none
    | some off =>
        match c.getFrameInfo (buf.drop off) with
        | none => none
        | some fi =>
            some { sampleRate := fi.samprate, channels := fi.nChans,
                   bitRate := fi.bitrate,
                   duration := if fi.bitrate > 0 then ((src.length : Int) * 8) / fi.bitrate else 0,
                   valid := true }

/-- MP3Decoder::startStreaming: getFileInfo populates _streamInfo, the streaming
state is initialized (bytesLeft = 0, readPtr = buffer start, firstFrame = true,
streaming = true), and the buffer is filled once; failure of either aborts. -/
def startStreaming (c : Codec) (src : List Nat) : Option StreamState :=
  match getFileInfo c src with
  | none => none
  | some inf =>
      let s0 : StreamState :=
        { window := [], cursor := 0, source := src,
          firstFrame := true, info := inf, streaming := true }
      match fillStreamBuffer s0 with
      | (false, _) => none
      | (true, s1) => some s1

/-- The final low-data refill of processStreamFrame: if bytesLeft <
INPUT_BUFFER_SIZE and the file still has data, fillStreamBuffer runs and its
result is ignored. -/
def lowDataRefill (s : StreamState) : StreamState :=
  if s.window.length < INPUT_BUFFER_SIZE ∧ s.source ≠ [] then (fillStreamBuffer s).2
  else s

/-- Result of one pass through the body of MP3Decoder::processStreamFrame: cont is
a tail-recursive retry (return processStreamFrame()), done is a return, and wrap
marks the point where the code executes the readPtr++/bytesLeft-- skip with
bytesLeft = 0, wrapping the unsigned counter (the carried state is the one just
before the decrement). -/
inductive StepRes (σ : Type) where
  | cont (s : StreamState) (p : σ)
  | done (ok : Bool) (s : StreamState) (p : σ)
  | wrap (s : StreamState) (p : σ)
deriving DecidableEq

/-- The stream state carried by a StepRes. -/
def StepRes.state {σ : Type} : StepRes σ → StreamState
  | .cont s _ => s
  | .done _ s _ => s
  | .wrap s _ => s

/-- The callback state carried by a StepRes. -/
def StepRes.player {σ : Type} : StepRes σ → σ
  | .cont _ p => p
  | .done _ _ p => p
  | .wrap _ p => p

/-- Whether a pass decremented bytesLeft at zero, wrapping the unsigned counter. -/
def StepRes.isWrap {σ : Type} : StepRes σ → Bool
  | .wrap _ _ => true
  | _ => false

/-- Refill and retry: the shared shape of the sync-miss and decode-underflow
paths of processStreamFrame - fill the buffer, return false when that fails,
otherwise take the tail-recursive retry. -/
def refillRetry {σ : Type} (s : StreamState) (p : σ) : StepRes σ :=
  let r := fillStreamBuffer s
  if r.1 then .cont r.2 p else .done false r.2 p

/-- The forced one-byte resync skip of processStreamFrame: readPtr++ and
bytesLeft-- (a wrap of the unsigned counter when bytesLeft is already 0),
followed by a refill when the window empties, then the tail-recursive retry. -/
def skipResync {σ : Type} (s : StreamState) (p : σ) : StepRes σ :=
  if s.window.length = 0 then .wrap s p
  else
    let s2 : StreamState := { s with cursor := s.cursor + 1, window := s.window.drop 1 }
    if s2.window.length = 0 then refillRetry s2 p
    else .cont s2 p

/-- One pass through the body of MP3Decoder::processStreamFrame, faithful to the
source: sync search (refill and retry when absent), frame info (one-byte resync
skip on error), first-frame metadata latch, decode (refill and retry on
underflow; one-byte resync skip past the consumed bytes on other errors; on
success the callback runs, a false callback result stops streaming), and the
final low-data refill. The callback state σ threads the MP3Player side. -/
def streamStep {σ : Type} (c : Codec)
    (cb : Option (σ → List Int → Nat → MP3Info → Bool × σ))
    (s : StreamState) (p : σ) : StepRes σ :=
  if s.streaming = false then .done false s p
  else
    match findSyncWord s.window with
    | none => refillRetry s p
    | some off =>
        let s1 : StreamState := { s with cursor := s.cursor + off, window := s.window.drop off }
        match c.getFrameInfo s1.window with
        | none => skipResync s1 p
        | some fi =>
            let s2 : StreamState :=
              if s1.firstFrame then
                { s1 with
                    info := { sampleRate := fi.samprate, channels := fi.nChans,
                              bitRate := fi.bitrate, duration := s1.info.duration,
                              valid := true },
                    firstFrame := false }
              else s1
            match c.decode s2.window with
            | .underflow => refillRetry s2 p
            | .err k =>
                skipResync { s2 with cursor := s2.cursor + k, window := s2.window.drop k } p
            | .ok k pcm =>
                let s3 : StreamState := { s2 with cursor := s2.cursor + k, window := s2.window.drop k }
                match cb with
                | none => .done true (lowDataRefill s3) p
                | some f =>
                    let fr := f p pcm fi.outputSamps s2.info
                    if fr.1 then .done true (lowDataRefill s3) fr.2
                    else .done false (stopStreaming s3) fr.2

/-- Observable outcome of a full processStreamFrame call: ret b is the bool the
function returns, overrun marks the unsigned wrap of bytesLeft, outOfFuel marks
exhaustion of the step budget. -/
inductive Outcome where
  | ret (b : Bool)
  | overrun
  | outOfFuel
deriving DecidableEq

/-- Iterate streamStep, mirroring the tail recursion of processStreamFrame, with
an explicit step budget. -/
def streamRun {σ : Type} (c : Codec)
    (cb : Option (σ → List Int → Nat → MP3Info → Bool × σ)) :
    Nat → StreamState → σ → Outcome × StreamState × σ
  | 0, s, p => (.outOfFuel, s, p)
  | Nat.succ fuel, s, p =>
      match streamStep c cb s p with
      | .cont s1 p1 => streamRun c cb fuel s1 p1
      | .done b s1 p1 => (.ret b, s1, p1)
      | .wrap s1 p1 => (.overrun, s1, p1)

/-- A step budget sufficient for one full processStreamFrame call: every tail
call either moves at least one byte out of the source or drops at least one
byte from the window. -/
def streamFuel (s : StreamState) : Nat := 2 * s.source.length + s.window.length + 1

/-- One full call of MP3Decoder::processStreamFrame, recursion included. -/
def processStreamFrame {σ : Type} (c : Codec)
    (cb : Option (σ → List Int → Nat → MP3Info → Bool × σ))
    (s : StreamState) (p : σ) : Outcome × StreamState × σ :=
  streamRun c cb (streamFuel s) s p

/-- The Arduino constrain macro used in MP3Player: clamp to [lo, hi]. -/
def constrain (v lo hi : ℚ) : ℚ := if v < lo then lo else if v > hi then hi else v

/-- Truncation toward zero, the semantics of the C cast (int16_t)(float). -/
def truncQ (q : ℚ) : Int := if q < 0 then ⌈q⌉ else ⌊q⌋

/-- MP3Player::applyVolume, with the float arithmetic modelled over the exact
rationals: no change for an empty block or volume at most 0, no change for
volume at least 1, otherwise each sample is multiplied and truncated back. -/
def applyVolume (samples : List Int) (volume : ℚ) : List Int :=
  if samples = [] ∨ volume ≤ 0 then samples
  else if volume ≥ 1 then samples
  else samples.map (fun x : Int => truncQ ((x : ℚ) * volume))

/-- The static MP3Player session state: playing, volume, hasCb models whether a
progress callback was supplied, totalFrames and processedFrames as in the
source, reported records every fraction handed to the progress observer,
writeCount counts writeSamples calls (the index into the sink oracle) and
writeErrorSeen records whether some writeSamples call returned an error. -/
structure PlayerState where
  playing : Bool
  volume : ℚ
  hasCb : Bool
  totalFrames : Nat
  processedFrames : Nat
  reported : List ℚ
  writeCount : Nat
  writeErrorSeen : Bool
deriving DecidableEq

/-- MP3Player::streamingCallback. The sink is modelled by the oracle sinkOk,
giving the success of each writeSamples call in order; the speaker and data
pointers are non-null in every reachable call and the malloc of the volume copy
is assumed to succeed. -/
def streamingCallback (sinkOk : Nat → Bool) (p : PlayerState)
    (pcm : List Int) (n : Nat) (_inf : MP3Info) : Bool × PlayerState :=
  if p.playing = false ∨ n = 0 then (false, p)
  else
    let _scaled := applyVolume pcm p.volume
    let idx := p.writeCount
    let p1 : PlayerState := { p with writeCount := idx + 1 }
    if sinkOk idx = false then (false, { p1 with writeErrorSeen := true })
    else
      let p2 : PlayerState := { p1 with processedFrames := p1.processedFrames + 1 }
      let p3 : PlayerState :=
        if p2.hasCb ∧ p2.totalFrames > 0 then
          { p2 with reported := p2.reported ++ [(p2.processedFrames : ℚ) / (p2.totalFrames : ℚ)] }
        else p2
      (p3.playing, p3)

/-- The while loop of MP3Player::playFileWithProgress: while the decoder streams
and the player plays, process one frame; a false result breaks. -/
def playLoop (c : Codec) (sinkOk : Nat → Bool) :
    Nat → StreamState → PlayerState → PlayerState × StreamState
  | 0, s, p => (p, s)
  | Nat.succ fuel, s, p =>
      if s.streaming ∧ p.playing then
        match processStreamFrame c (some (streamingCallback sinkOk)) s p with
        | (.ret true, s1, p1) => playLoop c sinkOk fuel s1 p1
        | (_, s1, p1) => (p1, s1)
      else (p, s)

/-- MP3Player::playFileWithProgress: volume and callback are set, counters reset,
streaming starts (false on failure), the loop runs, cleanup stops a still-active
streamer, clears playing and the progress callback, and the function returns
success - the value startStreaming produced, which the loop never updates. -/
def playFileWithProgress (c : Codec) (sinkOk : Nat → Bool) (src : List Nat)
    (vol : ℚ) (hcb : Bool) : Bool × PlayerState :=
  let p0 : PlayerState :=
    { playing := true, volume := constrain vol 0 1, hasCb := hcb,
      totalFrames := 0, processedFrames := 0, reported := [],
      writeCount := 0, writeErrorSeen := false }
  match startStreaming c src with
  | none => (false, { p0 with playing := false })
  | some s0 =>
      let r := playLoop c sinkOk (streamFuel s0) s0 p0
      let _s2 := if r.2.streaming then stopStreaming r.2 else r.2
      (true, { r.1 with playing := false, hasCb := false })

/-- MP3Player::stop: when playing, clear the playing flag and immediately stop
the streamer when it is active. -/
def stop (p : PlayerState) (s : StreamState) : PlayerState × StreamState :=
  if p.playing then
    ({ p with playing := false }, if s.streaming then stopStreaming s else s)
  else (p, s)

/-- A byte stream with no sync pattern at any position. -/
def noSync (l : List Nat) : Prop :=
  ∀ u v a b, l = u ++ a :: b :: v → syncPair a b = false

/-- The StreamBuffer invariant of the spec, in terms of the stored state:
cursor + bytesLeft never exceeds the capacity (fillLevel = cursor + bytesLeft,
so this is cursor ≤ fillLevel ≤ capacity). -/
def bufInv (s : StreamState) : Prop :=
  s.cursor + s.window.length ≤ STREAM_BUFFER_SIZE

/-- A codec whose decode consumes at most the window on success and strictly
less than the window on a malformed-data error. -/
def Codec.consumesWithin (c : Codec) : Prop :=
  (∀ w k pcm, c.decode w = .ok k pcm → k ≤ w.length) ∧
  (∀ w k, c.decode w = .err k → k < w.length)

/-- A codec that always reports underflow; used as a harmless concrete instance. -/
def trivialCodec : Codec where
  getFrameInfo _ := none
  decode _ := .underflow

/-- Placeholder metadata, the all-zero MP3Info. -/
def dummyInfo : MP3Info :=
  { sampleRate := 0, channels := 0, bitRate := 0, duration := 0, valid := false }

/-- The streaming state right after startStreaming initializes it and before the
initial buffer fill: empty window, the whole stream still in the source. -/
def initialStream (src : List Nat) : StreamState :=
  { window := [], cursor := 0, source := src,
    firstFrame := true, info := dummyInfo, streaming := true }

/-- A callback that counts the frames it receives and always continues. -/
def countingCb : Nat → List Int → Nat → MP3Info → Bool × Nat :=
  fun n _ _ _ => (true, n + 1)

/-- A codec that decodes any window as one fixed frame of four bytes. -/
def c1codec : Codec where
  getFrameInfo _ := some { samprate := 44100, nChans := 2, bitrate := 128, outputSamps := 1152 }
  decode _ := .ok 4 [0]

/-- A four-byte source starting with a sync pattern. -/
def c1src : List Nat := [255, 224, 0, 0]

/-- A streaming state with three unread bytes and a drained source. -/
def s3c : StreamState :=
  { window := [9, 9, 9], cursor := 2, source := [],
    firstFrame := false, info := dummyInfo, streaming := true }

/-- A codec whose decode always fails after consuming two bytes. -/
def c5codec : Codec where
  getFrameInfo _ := some { samprate := 32000, nChans := 1, bitrate := 96, outputSamps := 576 }
  decode _ := .err 2

/-- A streaming state whose window starts with a sync pattern, five bytes long. -/
def s5 : StreamState :=
  { window := [255, 224, 0, 0, 0], cursor := 0, source := [],
    firstFrame := true, info := dummyInfo, streaming := true }

/-- A codec whose decode fails after consuming the whole window - permitted by
the codec contract, which only requires that a prefix of the window is consumed. -/
def c6x : Codec where
  getFrameInfo _ := some { samprate := 8000, nChans := 1, bitrate := 32, outputSamps := 576 }
  decode w := .err w.length

/-- A three-byte synced window with a drained source. -/
def s6 : StreamState :=
  { window := [255, 224, 0], cursor := 0, source := [],
    firstFrame := true, info := dummyInfo, streaming := true }

/-- A codec for which the first frame (tag byte 7) parses with one metadata set
but fails to decode, while the second frame (tag byte 8) parses with different
metadata and decodes. -/
def c7codec : Codec where
  getFrameInfo w :=
    match w with
    | 255 :: 224 :: 7 :: _ => some { samprate := 11025, nChans := 1, bitrate := 64, outputSamps := 10 }
    | 255 :: 224 :: 8 :: _ => some { samprate := 44100, nChans := 2, bitrate := 128, outputSamps := 20 }
    | _ => none
  decode w :=
    match w with
    | 255 :: 224 :: 8 :: _ => .ok 3 [1, 2]
    | _ => .err 0

/-- A window holding two synced frames: first the tag-7 frame, then the tag-8
frame of c7codec. -/
def s7 : StreamState :=
  { window := [255, 224, 7, 255, 224, 8], cursor := 0, source := [],
    firstFrame := true, info := dummyInfo, streaming := true }

/-- Another consume-all-on-error codec, with distinct metadata. -/
def c10x : Codec where
  getFrameInfo _ := some { samprate := 22050, nChans := 2, bitrate := 64, outputSamps := 1152 }
  decode w := .err w.length

/-- A four-byte synced window (0xFF 0xF0 sync variant) with a drained source. -/
def s10 : StreamState :=
  { window := [255, 240, 9, 9], cursor := 0, source := [],
    firstFrame := true, info := dummyInfo, streaming := true }

/-- A mid-stream state with the latch already fired; used to instantiate
invariant theorems. -/
def witState : StreamState :=
  { window := [255, 224, 1], cursor := 4, source := [5],
    firstFrame := false, info := dummyInfo, streaming := true }

/-- A synced four-byte window for the frame-info-error skip. -/
def s5a : StreamState :=
  { window := [255, 224, 5, 6], cursor := 0, source := [],
    firstFrame := true, info := dummyInfo, streaming := true }

/-- A synced six-byte window for the decode-error skip. -/
def s5b : StreamState :=
  { window := [255, 224, 9, 9, 9, 9], cursor := 0, source := [],
    firstFrame := true, info := dummyInfo, streaming := true }

/-- A playing player state. -/
def p9 : PlayerState :=
  { playing := true, volume := 1, hasCb := false, totalFrames := 0,
    processedFrames := 0, reported := [], writeCount := 0, writeErrorSeen := false }

/-- A streaming decoder state with data in flight. -/
def s9 : StreamState :=
  { window := [3], cursor := 1, source := [7],
    firstFrame := false, info := dummyInfo, streaming := true }

/-- A sync offset always leaves at least two bytes from the offset on: the
pattern itself occupies two bytes of the window. -/
theorem findSyncWord_bound : ∀ (l : List Nat) (k : Nat), findSyncWord l = some k → k + 2 ≤ l.length
  | [], _, h => by simp [findSyncWord] at h
  | [_], _, h => by simp [findSyncWord] at h
  | a :: b :: r, k, h => by
      rw [findSyncWord] at h
      by_cases hs : syncPair a b
      · rw [if_pos hs] at h
        injection h with h
        subst h
        simp only [List.length_cons]
        omega
      · rw [if_neg hs] at h
        obtain ⟨k1, hk1, hk⟩ := Option.map_eq_some'.mp h
        have hb := findSyncWord_bound (b :: r) k1 hk1
        subst hk
        simp only [List.length_cons] at hb ⊢
        omega

/-- A stream with no sync pattern yields no sync offset. -/
theorem findSyncWord_eq_none (l : List Nat) (h : noSync l) : findSyncWord l = none := by
  induction l with
  | nil => rfl
  | cons a t ih =>
      match t with
      | [] => rfl
      | b :: r =>
          rw [findSyncWord]
          have ha : syncPair a b = false := h [] r a b rfl
          rw [ha]
          simp only [Bool.false_eq_true, Bool.true_eq_false, if_false]
          have ht : noSync (b :: r) := by
            intro u v x y hu
            exact h (a :: u) v x y (by rw [hu]; rfl)
          rw [ih ht]
          rfl

/-- noSync restricts to any prefix. -/
theorem noSync_prefix (l r : List Nat) (h : noSync (l ++ r)) : noSync l := by
  intro u v a b hu
  exact h u (v ++ r) a b (by rw [hu]; simp)

/-- A run of zero bytes holds no sync pattern. -/
theorem noSync_replicate (n : Nat) : noSync (List.replicate n 0) := by
  intro u v a b hu
  have ha : a ∈ List.replicate n 0 := by
    rw [hu]
    simp
  have : a = 0 := List.eq_of_mem_replicate ha
  subst this
  simp [syncPair]

/-- fillStreamBuffer with a drained source returns false before touching any
state. -/
theorem fillStreamBuffer_source_nil (s : StreamState) (h : s.source = []) :
    fillStreamBuffer s = (false, s) := by
  simp [fillStreamBuffer, h]

/-- fillStreamBuffer never changes the latched stream metadata. -/
theorem fillStreamBuffer_info (s : StreamState) : ((fillStreamBuffer s).2).info = s.info := by
  unfold fillStreamBuffer
  split
  · rfl
  · dsimp only
    split <;> rfl

/-- fillStreamBuffer never changes the first-frame latch flag. -/
theorem fillStreamBuffer_firstFrame (s : StreamState) :
    ((fillStreamBuffer s).2).firstFrame = s.firstFrame := by
  unfold fillStreamBuffer
  split
  · rfl
  · dsimp only
    split <;> rfl

/-- fillStreamBuffer never changes the streaming flag. -/
theorem fillStreamBuffer_streaming (s : StreamState) :
    ((fillStreamBuffer s).2).streaming = s.streaming := by
  unfold fillStreamBuffer
  split
  · rfl
  · dsimp only
    split <;> rfl

/-- fillStreamBuffer preserves the buffer invariant: the refill adds at most the
free space left under the fixed capacity. -/
theorem fillStreamBuffer_inv (s : StreamState) (h : bufInv s) : bufInv (fillStreamBuffer s).2 := by
  unfold fillStreamBuffer
  split
  · exact h
  · dsimp only
    split
    · unfold bufInv at *
      dsimp only
      omega
    · unfold bufInv at *
      simp only [List.length_append, List.length_take]
      have h1 : min (STREAM_BUFFER_SIZE - s.window.length) s.source.length ≤
          STREAM_BUFFER_SIZE - s.window.length := Nat.min_le_left _ _
      omega

/-- stopStreaming never changes the latched stream metadata. -/
theorem stopStreaming_info (s : StreamState) : (stopStreaming s).info = s.info := by
  unfold stopStreaming
  split <;> rfl

/-- stopStreaming never changes the first-frame latch flag. -/
theorem stopStreaming_firstFrame (s : StreamState) :
    (stopStreaming s).firstFrame = s.firstFrame := by
  unfold stopStreaming
  split <;> rfl

/-- stopStreaming preserves the buffer invariant. -/
theorem stopStreaming_inv (s : StreamState) (h : bufInv s) : bufInv (stopStreaming s) := by
  unfold stopStreaming
  split
  · unfold bufInv STREAM_BUFFER_SIZE
    simp
  · exact h

/-- The low-data refill never changes the latched stream metadata. -/
theorem lowDataRefill_info (s : StreamState) : (lowDataRefill s).info = s.info := by
  unfold lowDataRefill
  split
  · exact fillStreamBuffer_info s
  · rfl

/-- The low-data refill never changes the first-frame latch flag. -/
theorem lowDataRefill_firstFrame (s : StreamState) :
    (lowDataRefill s).firstFrame = s.firstFrame := by
  unfold lowDataRefill
  split
  · exact fillStreamBuffer_firstFrame s
  · rfl

/-- The low-data refill preserves the buffer invariant. -/
theorem lowDataRefill_inv (s : StreamState) (h : bufInv s) : bufInv (lowDataRefill s) := by
  unfold lowDataRefill
  split
  · exact fillStreamBuffer_inv s h
  · exact h

/-- The stream state of a cont step. -/
@[simp] theorem StepRes.state_cont {σ : Type} (s : StreamState) (p : σ) :
    (StepRes.cont s p).state = s := rfl

/-- The stream state of a done step. -/
@[simp] theorem StepRes.state_done {σ : Type} (b : Bool) (s : StreamState) (p : σ) :
    (StepRes.done b s p).state = s := rfl

/-- The stream state of a wrap step. -/
@[simp] theorem StepRes.state_wrap {σ : Type} (s : StreamState) (p : σ) :
    (StepRes.wrap s p).state = s := rfl

/-- The callback state of a cont step. -/
@[simp] theorem StepRes.player_cont {σ : Type} (s : StreamState) (p : σ) :
    (StepRes.cont s p).player = p := rfl

/-- The callback state of a done step. -/
@[simp] theorem StepRes.player_done {σ : Type} (b : Bool) (s : StreamState) (p : σ) :
    (StepRes.done b s p).player = p := rfl

/-- The callback state of a wrap step. -/
@[simp] theorem StepRes.player_wrap {σ : Type} (s : StreamState) (p : σ) :
    (StepRes.wrap s p).player = p := rfl

/-- A cont step is not a wrap. -/
@[simp] theorem StepRes.isWrap_cont {σ : Type} (s : StreamState) (p : σ) :
    (StepRes.cont s p).isWrap = false := rfl

/-- A done step is not a wrap. -/
@[simp] theorem StepRes.isWrap_done {σ : Type} (b : Bool) (s : StreamState) (p : σ) :
    (StepRes.done b s p).isWrap = false := rfl

/-- A wrap step is a wrap. -/
@[simp] theorem StepRes.isWrap_wrap {σ : Type} (s : StreamState) (p : σ) :
    (StepRes.wrap s p).isWrap = true := rfl

/-- The stream state a refill-retry carries is the filled buffer state. -/
theorem refillRetry_state {σ : Type} (s : StreamState) (p : σ) :
    (refillRetry s p).state = (fillStreamBuffer s).2 := by
  simp only [refillRetry]
  split_ifs <;> rfl

/-- A refill-retry leaves the callback state alone. -/
theorem refillRetry_player {σ : Type} (s : StreamState) (p : σ) :
    (refillRetry s p).player = p := by
  simp only [refillRetry]
  split_ifs <;> rfl

/-- A refill-retry never wraps the counter. -/
theorem refillRetry_isWrap {σ : Type} (s : StreamState) (p : σ) :
    (refillRetry s p).isWrap = false := by
  simp only [refillRetry]
  split_ifs <;> rfl

/-- A resync skip leaves the callback state alone. -/
theorem skipResync_player {σ : Type} (s : StreamState) (p : σ) :
    (skipResync s p).player = p := by
  simp only [skipResync]
  split_ifs
  · rfl
  · exact refillRetry_player _ _
  · rfl

/-- A resync skip from a nonempty window never wraps the counter. -/
theorem skipResync_isWrap {σ : Type} (s : StreamState) (p : σ) (h : 0 < s.window.length) :
    (skipResync s p).isWrap = false := by
  simp only [skipResync]
  split_ifs with h1
  · exfalso
    omega
  · exact refillRetry_isWrap _ _
  · rfl

/-- A resync skip preserves the buffer invariant. -/
theorem skipResync_inv {σ : Type} (s : StreamState) (p : σ)
    (h : s.cursor + s.window.length ≤ STREAM_BUFFER_SIZE) :
    bufInv (skipResync s p).state := by
  simp only [skipResync]
  split_ifs with h1 h2
  · exact h
  · rw [refillRetry_state]
    apply fillStreamBuffer_inv
    simp only [bufInv, List.length_drop]
    omega
  · simp only [StepRes.state_cont, bufInv, List.length_drop]
    omega

/-- A resync skip never changes the latched metadata. -/
theorem skipResync_info {σ : Type} (s : StreamState) (p : σ) :
    (skipResync s p).state.info = s.info := by
  simp only [skipResync]
  split_ifs
  · rfl
  · rw [refillRetry_state, fillStreamBuffer_info]
  · rfl

/-- A resync skip never changes the first-frame latch flag. -/
theorem skipResync_firstFrame {σ : Type} (s : StreamState) (p : σ) :
    (skipResync s p).state.firstFrame = s.firstFrame := by
  simp only [skipResync]
  split_ifs
  · rfl
  · rw [refillRetry_state, fillStreamBuffer_firstFrame]
  · rfl

/-- The skip after a frame-info error always runs with at least two unread bytes
(the sync pattern itself), and the skip after a decode error runs with at least
one unread byte whenever the codec consumed strictly less than the window while
failing; under that proviso no pass of the body wraps the bytesLeft counter. -/
theorem streamStep_no_wrap {σ : Type} (c : Codec)
    (herr : ∀ w k, c.decode w = .err k → k < w.length)
    (cb : Option (σ → List Int → Nat → MP3Info → Bool × σ)) (s : StreamState) (p : σ) :
    (streamStep c cb s p).isWrap = false := by
  by_cases hst : s.streaming = false
  · simp [streamStep, hst]
  · rcases hsync : findSyncWord s.window with _ | off
    · simp [streamStep, hst, hsync, refillRetry_isWrap]
    · have hb := findSyncWord_bound s.window off hsync
      rcases hinfo : c.getFrameInfo (s.window.drop off) with _ | fi
      · simp only [streamStep, hst, hsync, hinfo, Bool.false_eq_true, Bool.true_eq_false, if_false]
        apply skipResync_isWrap
        simp only [List.length_drop]
        omega
      · by_cases hff : s.firstFrame = true
        all_goals cases hdec : c.decode (s.window.drop off) with
        | underflow => simp [streamStep, hst, hsync, hinfo, hdec, hff, refillRetry_isWrap]
        | err k =>
            have hk := herr _ _ hdec
            simp only [List.length_drop] at hk
            simp only [streamStep, hst, hsync, hinfo, hdec, hff, Bool.false_eq_true, Bool.true_eq_false, if_false,
              if_true]
            apply skipResync_isWrap
            simp only [List.length_drop]
            omega
        | ok k pcm =>
            cases cb with
            | none => simp [streamStep, hst, hsync, hinfo, hdec, hff]
            | some f => simp [streamStep, hst, hsync, hinfo, hdec, hff, apply_ite StepRes.isWrap]

/-- Under a codec that consumes at most the window on success and strictly less
on error, every pass of the processStreamFrame body preserves the buffer
invariant cursor + bytesLeft ≤ capacity. -/
theorem streamStep_inv {σ : Type} (c : Codec) (hc : c.consumesWithin)
    (cb : Option (σ → List Int → Nat → MP3Info → Bool × σ)) (s : StreamState) (p : σ)
    (h : bufInv s) :
    bufInv (streamStep c cb s p).state := by
  obtain ⟨hok, herr⟩ := hc
  unfold bufInv at h
  by_cases hst : s.streaming = false
  · simpa [streamStep, hst, bufInv] using h
  · rcases hsync : findSyncWord s.window with _ | off
    · have hf := fillStreamBuffer_inv s h
      simp only [streamStep, hst, hsync, Bool.false_eq_true, Bool.true_eq_false, if_false]
      rw [refillRetry_state]
      exact hf
    · have hb := findSyncWord_bound s.window off hsync
      rcases hinfo : c.getFrameInfo (s.window.drop off) with _ | fi
      · simp only [streamStep, hst, hsync, hinfo, Bool.false_eq_true, Bool.true_eq_false, if_false]
        apply skipResync_inv
        simp only [List.length_drop]
        omega
      · by_cases hff : s.firstFrame = true
        all_goals cases hdec : c.decode (s.window.drop off) with
        | underflow =>
            simp only [streamStep, hst, hsync, hinfo, hdec, hff, Bool.false_eq_true, Bool.true_eq_false, if_false,
              if_true]
            rw [refillRetry_state]
            apply fillStreamBuffer_inv
            simp only [bufInv, List.length_drop]
            omega
        | err k =>
            have hk := herr _ _ hdec
            simp only [List.length_drop] at hk
            simp only [streamStep, hst, hsync, hinfo, hdec, hff, Bool.false_eq_true, Bool.true_eq_false, if_false,
              if_true]
            apply skipResync_inv
            simp only [List.length_drop]
            omega
        | ok k pcm =>
            have hk := hok _ _ _ hdec
            simp only [List.length_drop] at hk
            cases cb with
            | none =>
                simp only [streamStep, hst, hsync, hinfo, hdec, hff, Bool.false_eq_true, Bool.true_eq_false, if_false,
                  if_true, StepRes.state_done]
                apply lowDataRefill_inv
                simp only [bufInv, List.length_drop]
                omega
            | some f =>
                simp only [streamStep, hst, hsync, hinfo, hdec, hff, Bool.false_eq_true, Bool.true_eq_false, if_false,
                  if_true, apply_ite StepRes.state, StepRes.state_done]
                split_ifs
                · apply lowDataRefill_inv
                  simp only [bufInv, List.length_drop]
                  omega
                · apply stopStreaming_inv
                  simp only [bufInv, List.length_drop]
                  omega

/-- A preserved property of the callback state is preserved by one body pass. -/
theorem streamStep_player_pres {σ : Type} (c : Codec)
    (f : σ → List Int → Nat → MP3Info → Bool × σ) (P : σ → Prop)
    (hf : ∀ q pcm n inf, P q → P (f q pcm n inf).2)
    (s : StreamState) (p : σ) (hp : P p) :
    P (streamStep c (some f) s p).player := by
  by_cases hst : s.streaming = false
  · simpa [streamStep, hst] using hp
  · rcases hsync : findSyncWord s.window with _ | off
    · simpa [streamStep, hst, hsync, refillRetry_player] using hp
    · rcases hinfo : c.getFrameInfo (s.window.drop off) with _ | fi
      · simpa [streamStep, hst, hsync, hinfo, skipResync_player] using hp
      · by_cases hff : s.firstFrame = true
        all_goals cases hdec : c.decode (s.window.drop off) with
        | underflow => simpa [streamStep, hst, hsync, hinfo, hdec, hff, refillRetry_player] using hp
        | err k => simpa [streamStep, hst, hsync, hinfo, hdec, hff, skipResync_player] using hp
        | ok k pcm =>
            simp only [streamStep, hst, hsync, hinfo, hdec, hff, Bool.false_eq_true, Bool.true_eq_false, if_false,
              if_true, apply_ite StepRes.player, StepRes.player_done]
            split_ifs
            · exact hf _ _ _ _ hp
            · exact hf _ _ _ _ hp

/-- Once the first-frame latch has fired, no pass of the processStreamFrame body
changes the latched metadata or re-arms the latch. -/
theorem streamStep_latched {σ : Type} (c : Codec)
    (cb : Option (σ → List Int → Nat → MP3Info → Bool × σ)) (s : StreamState) (p : σ)
    (h : s.firstFrame = false) :
    (streamStep c cb s p).state.info = s.info ∧ (streamStep c cb s p).state.firstFrame = false := by
  by_cases hst : s.streaming = false
  · simp [streamStep, hst, h]
  · rcases hsync : findSyncWord s.window with _ | off
    · simp only [streamStep, hst, hsync, Bool.false_eq_true, Bool.true_eq_false, if_false, refillRetry_state]
      rw [fillStreamBuffer_info, fillStreamBuffer_firstFrame]
      exact ⟨rfl, h⟩
    · rcases hinfo : c.getFrameInfo (s.window.drop off) with _ | fi
      · simp only [streamStep, hst, hsync, hinfo, Bool.false_eq_true, Bool.true_eq_false, if_false]
        rw [skipResync_info, skipResync_firstFrame]
        exact ⟨rfl, h⟩
      · cases hdec : c.decode (s.window.drop off) with
        | underflow =>
            simp only [streamStep, hst, hsync, hinfo, hdec, h, Bool.false_eq_true, Bool.true_eq_false, if_false,
              refillRetry_state]
            rw [fillStreamBuffer_info, fillStreamBuffer_firstFrame]
            exact ⟨rfl, rfl⟩
        | err k =>
            simp only [streamStep, hst, hsync, hinfo, hdec, h, Bool.false_eq_true, Bool.true_eq_false, if_false]
            rw [skipResync_info, skipResync_firstFrame]
            exact ⟨rfl, rfl⟩
        | ok k pcm =>
            cases cb with
            | none =>
                simp only [streamStep, hst, hsync, hinfo, hdec, h, Bool.false_eq_true, Bool.true_eq_false, if_false,
                  StepRes.state_done]
                rw [lowDataRefill_info, lowDataRefill_firstFrame]
                exact ⟨rfl, rfl⟩
            | some f =>
                simp only [streamStep, hst, hsync, hinfo, hdec, h, Bool.false_eq_true, Bool.true_eq_false, if_false,
                  apply_ite StepRes.state, StepRes.state_done]
                split_ifs
                · rw [lowDataRefill_info, lowDataRefill_firstFrame]
                  exact ⟨rfl, rfl⟩
                · rw [stopStreaming_info, stopStreaming_firstFrame]
                  exact ⟨rfl, rfl⟩

/-- Once latched, the stream metadata survives any number of body passes. -/
theorem streamRun_latched {σ : Type} (c : Codec)
    (cb : Option (σ → List Int → Nat → MP3Info → Bool × σ)) :
    ∀ (fuel : Nat) (s : StreamState) (p : σ), s.firstFrame = false →
      (streamRun c cb fuel s p).2.1.info = s.info ∧
      (streamRun c cb fuel s p).2.1.firstFrame = false
  | 0, _, _, h => ⟨rfl, h⟩
  | Nat.succ fuel, s, p, h => by
      have hs := streamStep_latched c cb s p h
      cases hstep : streamStep c cb s p with
      | cont s1 p1 =>
          rw [hstep] at hs
          simp only [StepRes.state_cont] at hs
          have hr := streamRun_latched c cb fuel s1 p1 hs.2
          simp only [streamRun, hstep]
          exact ⟨hr.1.trans hs.1, hr.2⟩
      | done b s1 p1 =>
          rw [hstep] at hs
          simp only [StepRes.state_done] at hs
          simp only [streamRun, hstep]
          exact hs
      | wrap s1 p1 =>
          rw [hstep] at hs
          simp only [StepRes.state_wrap] at hs
          simp only [streamRun, hstep]
          exact hs

/-- Under a codec that consumes at most the window on success and strictly less
on error, a full processStreamFrame call never wraps the counter and preserves
the buffer invariant, for any step budget. -/
theorem streamRun_inv {σ : Type} (c : Codec) (hc : c.consumesWithin)
    (cb : Option (σ → List Int → Nat → MP3Info → Bool × σ)) :
    ∀ (fuel : Nat) (s : StreamState) (p : σ), bufInv s →
      (streamRun c cb fuel s p).1 ≠ Outcome.overrun ∧
      bufInv (streamRun c cb fuel s p).2.1
  | 0, _, _, h => ⟨by simp [streamRun], h⟩
  | Nat.succ fuel, s, p, h => by
      have hw := streamStep_no_wrap c hc.2 cb s p
      have hi := streamStep_inv c hc cb s p h
      cases hstep : streamStep c cb s p with
      | cont s1 p1 =>
          rw [hstep] at hi
          simp only [StepRes.state_cont] at hi
          have hr := streamRun_inv c hc cb fuel s1 p1 hi
          simpa only [streamRun, hstep] using hr
      | done b s1 p1 =>
          rw [hstep] at hi
          simp only [StepRes.state_done] at hi
          simp only [streamRun, hstep]
          exact ⟨by simp, hi⟩
      | wrap s1 p1 =>
          rw [hstep] at hw
          simp [StepRes.isWrap] at hw

/-- A preserved property of the callback state is preserved by a full
processStreamFrame call. -/
theorem streamRun_player_pres {σ : Type} (c : Codec)
    (f : σ → List Int → Nat → MP3Info → Bool × σ) (P : σ → Prop)
    (hf : ∀ q pcm n inf, P q → P (f q pcm n inf).2) :
    ∀ (fuel : Nat) (s : StreamState) (p : σ), P p →
      P (streamRun c (some f) fuel s p).2.2
  | 0, _, _, hp => hp
  | Nat.succ fuel, s, p, hp => by
      have hq := streamStep_player_pres c f P hf s p hp
      cases hstep : streamStep c (some f) s p with
      | cont s1 p1 =>
          rw [hstep] at hq
          simp only [StepRes.player_cont] at hq
          have hr := streamRun_player_pres c f P hf fuel s1 p1 hq
          simpa only [streamRun, hstep] using hr
      | done b s1 p1 =>
          rw [hstep] at hq
          simp only [StepRes.player_done] at hq
          simpa only [streamRun, hstep] using hq
      | wrap s1 p1 =>
          rw [hstep] at hq
          simp only [StepRes.player_wrap] at hq
          simpa only [streamRun, hstep] using hq

/-- A property of the player state preserved by the streaming callback is
preserved by the playback loop. -/
theorem playLoop_player_pres (c : Codec) (sinkOk : Nat → Bool) (P : PlayerState → Prop)
    (hcb : ∀ q pcm n inf, P q → P (streamingCallback sinkOk q pcm n inf).2) :
    ∀ (fuel : Nat) (s : StreamState) (p : PlayerState), P p →
      P (playLoop c sinkOk fuel s p).1
  | 0, _, _, hp => hp
  | Nat.succ fuel, s, p, hp => by
      by_cases hg : s.streaming ∧ p.playing
      · have hq : P (processStreamFrame c (some (streamingCallback sinkOk)) s p).2.2 :=
          streamRun_player_pres c (streamingCallback sinkOk) P hcb (streamFuel s) s p hp
        simp only [playLoop, if_pos hg]
        rcases hr : processStreamFrame c (some (streamingCallback sinkOk)) s p with ⟨o, s1, p1⟩
        rw [hr] at hq
        cases o with
        | ret b =>
            cases b with
            | true => exact playLoop_player_pres c sinkOk P hcb fuel s1 p1 hq
            | false => exact hq
        | overrun => exact hq
        | outOfFuel => exact hq
      · simp only [playLoop, if_neg hg]
        exact hp

/-- The initial buffer fill reads the first bufferful, leaving the rest of the
source unread. -/
theorem fillStreamBuffer_initial (src : List Nat) (h : src ≠ []) :
    fillStreamBuffer (initialStream src) =
      (true, { window := src.take STREAM_BUFFER_SIZE, cursor := 0,
               source := src.drop STREAM_BUFFER_SIZE, firstFrame := true,
               info := dummyInfo, streaming := true }) := by
  have hlen : 0 < src.length := List.length_pos.mpr h
  unfold fillStreamBuffer initialStream
  rw [if_neg h]
  have hmin : min (STREAM_BUFFER_SIZE - ([] : List Nat).length) src.length =
      min STREAM_BUFFER_SIZE src.length := by simp
  simp only [hmin]
  have hne : min STREAM_BUFFER_SIZE src.length ≠ 0 := by
    simp only [Nat.min_eq_zero_iff, STREAM_BUFFER_SIZE]
    omega
  rw [if_neg hne]
  rcases Nat.le_total src.length STREAM_BUFFER_SIZE with hle | hle
  · rw [Nat.min_eq_right hle]
    simp [List.take_of_length_le hle, List.take_of_length_le (le_trans hle (le_refl _)),
      List.drop_of_length_le hle, List.take_length, List.drop_length]
  · rw [Nat.min_eq_left hle]
    simp

/-- On a source with no sync pattern anywhere, one full processStreamFrame call
(within its own step budget) reads at most one bufferful, finds nothing, emits
no frame, and returns false; the window retains the first bufferful and the
rest of the source stays unread. -/
theorem noSync_run (c : Codec) (stream : List Nat) (h : noSync stream) :
    processStreamFrame c (some countingCb) (initialStream stream) 0 =
      (Outcome.ret false,
       { window := stream.take STREAM_BUFFER_SIZE, cursor := 0,
         source := stream.drop STREAM_BUFFER_SIZE, firstFrame := true,
         info := dummyInfo, streaming := true }, 0) := by
  by_cases hnil : stream = []
  · subst hnil
    rfl
  · have hlen : 0 < stream.length := List.length_pos.mpr hnil
    set s1 : StreamState :=
      { window := stream.take STREAM_BUFFER_SIZE, cursor := 0,
        source := stream.drop STREAM_BUFFER_SIZE, firstFrame := true,
        info := dummyInfo, streaming := true } with hs1
    have hfill : fillStreamBuffer (initialStream stream) = (true, s1) :=
      fillStreamBuffer_initial stream hnil
    have hsync1 : findSyncWord ([] : List Nat) = none := rfl
    have hstep1 : streamStep c (some countingCb) (initialStream stream) 0 =
        StepRes.cont s1 0 := by
      have hfill2 := hfill
      simp only [initialStream] at hfill2
      simp only [streamStep, initialStream, Bool.true_eq_false, if_false, hsync1,
        refillRetry, hfill2]
      rfl
    have hpre : noSync (stream.take STREAM_BUFFER_SIZE) := by
      apply noSync_prefix (stream.take STREAM_BUFFER_SIZE) (stream.drop STREAM_BUFFER_SIZE)
      rw [List.take_append_drop]
      exact h
    have hsync2 : findSyncWord s1.window = none := findSyncWord_eq_none _ hpre
    have hfillb : fillStreamBuffer s1 = (false, s1) := by
      rw [hs1]
      simp only [fillStreamBuffer]
      split_ifs with h1 h2
      · rfl
      · rfl
      · exfalso
        apply h2
        have hlt : STREAM_BUFFER_SIZE < stream.length := by
          by_contra hx
          push_neg at hx
          exact h1 (List.drop_eq_nil_of_le hx)
        simp only [List.length_take, Nat.min_eq_left (le_of_lt hlt)]
        simp
    have hstr1 : (s1.streaming = false) = False := by
      rw [hs1]
      simp
    have hstep2 : streamStep c (some countingCb) s1 0 = StepRes.done false s1 0 := by
      simp only [streamStep, hstr1, if_false, hsync2, refillRetry, hfillb]
      rfl
    have hfuel : streamFuel (initialStream stream) = Nat.succ (2 * stream.length) := rfl
    unfold processStreamFrame
    rw [hfuel]
    simp only [streamRun, hstep1]
    have hfuel2 : 2 * stream.length = Nat.succ (2 * stream.length - 1) := by omega
    rw [hfuel2]
    simp only [streamRun, hstep2]

/-- Truncation toward zero keeps a rational strictly inside the 16-bit band
inside the representable range. -/
theorem truncQ_range (q : ℚ) (h1 : -32768 < q) (h2 : q < 32768) :
    -32768 ≤ truncQ q ∧ truncQ q ≤ 32767 := by
  unfold truncQ
  split_ifs with hq
  · have hc1 : (-32768 : Int) < ⌈q⌉ := Int.lt_ceil.mpr (by exact_mod_cast h1)
    have hc2 : ⌈q⌉ ≤ (0 : Int) := Int.ceil_le.mpr (by exact_mod_cast le_of_lt hq)
    omega
  · push_neg at hq
    have hc1 : (0 : Int) ≤ ⌊q⌋ := Int.floor_nonneg.mpr hq
    have hc2 : ⌊q⌋ < 32768 := Int.floor_lt.mpr (by exact_mod_cast h2)
    omega

/-- A 16-bit sample scaled by a factor strictly between 0 and 1 stays strictly
inside the band. -/
theorem sampleScaleBound (x : Int) (v : ℚ) (hx1 : -32768 ≤ x) (hx2 : x ≤ 32767)
    (h0 : 0 < v) (h1 : v < 1) :
    -32768 < (x : ℚ) * v ∧ (x : ℚ) * v < 32768 := by
  have hx1q : (-32768 : ℚ) ≤ (x : ℚ) := by exact_mod_cast hx1
  have hx2q : (x : ℚ) ≤ 32767 := by exact_mod_cast hx2
  constructor
  · rcases le_or_lt 0 (x : ℚ) with hx0 | hx0
    · nlinarith
    · nlinarith
  · rcases le_or_lt (x : ℚ) 0 with hx0 | hx0
    · nlinarith
    · nlinarith

set_option maxRecDepth 100000 in
/-- C1: the claim says a failed sink write makes playFileWithProgress return
false; in the code the loop never updates success (set by startStreaming), so a
run whose only sink write fails still returns true, while the write error is
visible in the session state. This contradicts the documentation of the
function itself, which promises true only if playback completed successfully. -/
theorem C1_sink_error_still_returns_true :
    (playFileWithProgress c1codec (fun _ => false) c1src 1 false).1 = true ∧
    (playFileWithProgress c1codec (fun _ => false) c1src 1 false).2.writeErrorSeen = true := by
  decide

/-- C2 (amended): on a source with no sync pattern anywhere, the streaming loop
terminates within its step budget, returns false (end of stream), emits zero
frames, and retains the first bufferful in the window; the source is fully
consumed exactly when it fits into the 8192-byte stream buffer. -/
theorem C2_nosync_loop (c : Codec) (stream : List Nat) (h : noSync stream) :
    processStreamFrame c (some countingCb) (initialStream stream) 0 =
      (Outcome.ret false,
       { window := stream.take STREAM_BUFFER_SIZE, cursor := 0,
         source := stream.drop STREAM_BUFFER_SIZE, firstFrame := true,
         info := dummyInfo, streaming := true }, 0) ∧
    (stream.length ≤ STREAM_BUFFER_SIZE →
      (processStreamFrame c (some countingCb) (initialStream stream) 0).2.1.source = []) := by
  refine ⟨noSync_run c stream h, fun hle => ?_⟩
  rw [noSync_run c stream h]
  exact List.drop_eq_nil_of_le hle

/-- C2 witness: a 20-byte all-zero source - the loop ends with the source fully
consumed and zero frames emitted. -/
theorem C2_nosync_loop_witness :
    processStreamFrame trivialCodec (some countingCb) (initialStream (List.replicate 20 0)) 0 =
      (Outcome.ret false,
       { window := (List.replicate 20 0).take STREAM_BUFFER_SIZE, cursor := 0,
         source := (List.replicate 20 0).drop STREAM_BUFFER_SIZE, firstFrame := true,
         info := dummyInfo, streaming := true }, 0) ∧
    ((List.replicate 20 0).length ≤ STREAM_BUFFER_SIZE →
      (processStreamFrame trivialCodec (some countingCb)
        (initialStream (List.replicate 20 0)) 0).2.1.source = []) :=
  C2_nosync_loop trivialCodec (List.replicate 20 0) (noSync_replicate 20)

/-- On a syncless source strictly longer than the stream buffer, the loop ends
(ret false) with zero frames while source bytes remain unread. -/
theorem noSync_long_leaves_bytes (c : Codec) (stream : List Nat) (h : noSync stream)
    (hlong : STREAM_BUFFER_SIZE < stream.length) :
    (processStreamFrame c (some countingCb) (initialStream stream) 0).1 = Outcome.ret false ∧
    (processStreamFrame c (some countingCb) (initialStream stream) 0).2.1.source ≠ [] ∧
    (processStreamFrame c (some countingCb) (initialStream stream) 0).2.2 = 0 := by
  rw [noSync_run c stream h]
  refine ⟨rfl, ?_, rfl⟩
  intro hx
  have hx2 := congrArg List.length hx
  rw [List.length_drop] at hx2
  simp only [List.length_nil] at hx2
  omega

/-- C2 counterexample: a syncless source one byte larger than the stream buffer.
The loop signals end of stream (ret false) with zero frames, yet at least one
source byte was never consumed - refuting the part of the claim that says
end-of-stream is signalled only after the entire source has been consumed. -/
theorem C2_counterexample :
    (processStreamFrame trivialCodec (some countingCb)
      (initialStream (List.replicate 8193 0)) 0).1 = Outcome.ret false ∧
    (processStreamFrame trivialCodec (some countingCb)
      (initialStream (List.replicate 8193 0)) 0).2.1.source ≠ [] ∧
    (processStreamFrame trivialCodec (some countingCb)
      (initialStream (List.replicate 8193 0)) 0).2.2 = 0 :=
  noSync_long_leaves_bytes trivialCodec (List.replicate 8193 0) (noSync_replicate 8193)
    (by rw [List.length_replicate]; unfold STREAM_BUFFER_SIZE; omega)

/-- C3 (amended): whenever the source reports no more data, fillStreamBuffer
returns false - which processStreamFrame propagates to the caller as end of
stream - and leaves the whole buffer state untouched, regardless of how many
unread bytes remain. -/
theorem C3_fill_drained_source (s : StreamState) (h : s.source = []) :
    fillStreamBuffer s = (false, s) :=
  fillStreamBuffer_source_nil s h

/-- C3 witness: a drained source with two unread bytes. -/
theorem C3_fill_drained_source_witness :
    fillStreamBuffer { window := [1, 2], cursor := 0, source := [],
                       firstFrame := true, info := dummyInfo, streaming := true } =
      (false, { window := [1, 2], cursor := 0, source := [],
                firstFrame := true, info := dummyInfo, streaming := true }) :=
  C3_fill_drained_source _ rfl

/-- C3 counterexample: with three unread bytes and a drained source,
fillStreamBuffer returns false and processStreamFrame thereupon ends the
stream - refuting the part of the claim that says exhaustion is signalled only
when both the source is drained and the count of unread buffered bytes is zero. -/
theorem C3_counterexample :
    (fillStreamBuffer s3c).1 = false ∧ s3c.window.length = 3 ∧
    processStreamFrame trivialCodec
      (none : Option (Unit → List Int → Nat → MP3Info → Bool × Unit)) s3c () =
      (Outcome.ret false, s3c, ()) := by
  decide

/-- C4 (amended): applyVolume at volume 1 is the identity; at volume at most 0
it is also the identity (the block is left unchanged, not zeroed); for volumes
strictly between 0 and 1 the block keeps its length and every scaled sample
stays within the 16-bit signed range. -/
theorem C4_applyVolume (samples : List Int) (volume : ℚ) :
    (volume = 1 → applyVolume samples volume = samples) ∧
    (volume ≤ 0 → applyVolume samples volume = samples) ∧
    (0 < volume → volume < 1 →
      (∀ x ∈ samples, -32768 ≤ x ∧ x ≤ 32767) →
      ((applyVolume samples volume).length = samples.length ∧
       ∀ y ∈ applyVolume samples volume, -32768 ≤ y ∧ y ≤ 32767)) := by
  refine ⟨?_, ?_, ?_⟩
  · intro h1
    subst h1
    unfold applyVolume
    split_ifs with h2 h3
    · rfl
    · rfl
    · exact absurd (le_refl (1 : ℚ)) h3
  · intro h1
    unfold applyVolume
    split_ifs with h2 h3
    · rfl
    · rfl
    · exact absurd (Or.inr h1) h2
  · intro h0 h1 hs
    unfold applyVolume
    split_ifs with h2 h3
    · exact ⟨rfl, hs⟩
    · exact absurd h3 (not_le.mpr h1)
    · constructor
      · exact List.length_map _ _
      · intro y hy
        rw [List.mem_map] at hy
        obtain ⟨x, hx, rfl⟩ := hy
        have hb := sampleScaleBound x volume (hs x hx).1 (hs x hx).2 h0 h1
        exact truncQ_range _ hb.1 hb.2

/-- C4 witness: a two-sample block at half volume keeps its length and stays in
range. -/
theorem C4_applyVolume_witness :
    (applyVolume [100, -100] (1 / 2 : ℚ)).length = ([100, -100] : List Int).length ∧
    ∀ y ∈ applyVolume [100, -100] (1 / 2 : ℚ), -32768 ≤ y ∧ y ≤ 32767 :=
  (C4_applyVolume [100, -100] (1 / 2)).2.2 (by norm_num) (by norm_num) (by decide)

/-- C4 counterexample: at volume 0 the block is returned unchanged, not zeroed -
refuting the part of the claim that says volume 0.0 produces an all-zero
block. -/
theorem C4_counterexample :
    applyVolume [5] 0 = [5] ∧ applyVolume [5] 0 ≠ [0] := by
  decide

/-- C5 (amended): at a synced position, a frame-info error advances the cursor
by exactly one byte and changes nothing else before returning to sync search;
a decode error advances the cursor by the bytes the failed decode consumed plus
one, so the unread count drops by consumed + 1 rather than exactly 1. -/
theorem C5_resync_behavior {σ : Type} (c : Codec)
    (cb : Option (σ → List Int → Nat → MP3Info → Bool × σ)) (s : StreamState) (p : σ)
    (off : Nat) (hst : s.streaming = true) (hsync : findSyncWord s.window = some off) :
    (c.getFrameInfo (s.window.drop off) = none →
      streamStep c cb s p =
        StepRes.cont { s with cursor := s.cursor + off + 1,
                              window := s.window.drop (off + 1) } p) ∧
    (∀ fi k, c.getFrameInfo (s.window.drop off) = some fi →
      c.decode (s.window.drop off) = DecodeResult.err k →
      k + 1 < (s.window.drop off).length →
      ∃ s2, streamStep c cb s p = StepRes.cont s2 p ∧
        s2.cursor = s.cursor + off + k + 1 ∧
        s2.window = s.window.drop (off + k + 1) ∧
        s2.source = s.source) := by
  have hb := findSyncWord_bound s.window off hsync
  have hstf : (s.streaming = false) = False := by simp [hst]
  constructor
  · intro hinfo
    simp only [streamStep, hstf, if_false, hsync, hinfo, skipResync, List.length_drop,
      List.drop_drop]
    split_ifs with h1 h2
    · exact absurd h1 (by omega)
    · exact absurd h2 (by omega)
    · rfl
  · intro fi k hinfo hdec hk
    simp only [List.length_drop] at hk
    rcases Bool.eq_false_or_eq_true s.firstFrame with hff | hff
    all_goals
      simp only [streamStep, hstf, if_false, hsync, hinfo, hff, Bool.false_eq_true,
        Bool.true_eq_false, if_false, if_true, hdec, skipResync, List.length_drop,
        List.drop_drop]
      split_ifs with h1 h2
      · exact absurd h1 (by omega)
      · exact absurd h2 (by omega)
      · exact ⟨_, rfl, rfl, rfl, rfl⟩

/-- C5 witness: the two skip behaviors at concrete synced windows - the
frame-info error advances exactly one byte; a decode error that consumed two
bytes advances three. -/
theorem C5_resync_behavior_witness :
    streamStep trivialCodec (none : Option (Unit → List Int → Nat → MP3Info → Bool × Unit))
        s5a () =
      StepRes.cont { s5a with cursor := s5a.cursor + 0 + 1,
                              window := s5a.window.drop (0 + 1) } () ∧
    ∃ s2, streamStep c5codec
        (none : Option (Unit → List Int → Nat → MP3Info → Bool × Unit)) s5b () =
        StepRes.cont s2 () ∧
      s2.cursor = s5b.cursor + 0 + 2 + 1 ∧
      s2.window = s5b.window.drop (0 + 2 + 1) ∧
      s2.source = s5b.source :=
  ⟨(C5_resync_behavior trivialCodec none s5a () 0 rfl (by decide)).1 rfl,
   (C5_resync_behavior c5codec none s5b () 0 rfl (by decide)).2
     { samprate := 32000, nChans := 1, bitrate := 96, outputSamps := 576 } 2
     rfl rfl (by decide)⟩

/-- C5 counterexample: a decode error that consumed two bytes makes the cursor
advance by three, not by exactly one as the claim states. -/
theorem C5_counterexample :
    streamStep c5codec (none : Option (Unit → List Int → Nat → MP3Info → Bool × Unit))
        s5 () =
      StepRes.cont { window := [0, 0], cursor := 3, source := [], firstFrame := false,
                     info := { sampleRate := 32000, channels := 1, bitRate := 96,
                               duration := 0, valid := true },
                     streaming := true } () ∧
    s5.cursor + 1 ≠ 3 := by
  decide

/-- C6 (amended): provided the codec consumes at most the window on a successful
decode and strictly less than the window on a decode error, every streaming run
preserves the buffer invariant cursor ≤ fillLevel ≤ capacity and never lets the
read position pass the fill level (no overrun). Without the strict proviso the
invariant fails - see the counterexample. -/
theorem C6_buffer_invariant {σ : Type} (c : Codec) (hc : c.consumesWithin)
    (cb : Option (σ → List Int → Nat → MP3Info → Bool × σ)) (fuel : Nat)
    (s : StreamState) (p : σ) (h : bufInv s) :
    (streamRun c cb fuel s p).1 ≠ Outcome.overrun ∧
    bufInv (streamRun c cb fuel s p).2.1 :=
  streamRun_inv c hc cb fuel s p h

/-- C6 witness: a concrete run of three passes from a mid-stream state. -/
theorem C6_buffer_invariant_witness :
    (streamRun trivialCodec (none : Option (Unit → List Int → Nat → MP3Info → Bool × Unit))
      3 witState ()).1 ≠ Outcome.overrun ∧
    bufInv (streamRun trivialCodec
      (none : Option (Unit → List Int → Nat → MP3Info → Bool × Unit)) 3 witState ()).2.1 :=
  C6_buffer_invariant trivialCodec
    ⟨fun w k pcm hx => by simp [trivialCodec] at hx,
     fun w k hx => by simp [trivialCodec] at hx⟩
    none 3 witState ()
    (by simp [bufInv, witState, STREAM_BUFFER_SIZE])

/-- C6 counterexample: a codec that consumes the entire window while reporting a
decode error - permitted by the codec contract, which only requires consuming a
prefix - drives the run into overrun: the forced one-byte skip executes with
zero unread bytes and the read position passes the fill level. -/
theorem C6_counterexample :
    (streamRun c6x (none : Option (Unit → List Int → Nat → MP3Info → Bool × Unit))
      1 s6 ()).1 = Outcome.overrun ∧
    (∀ w k pcm, c6x.decode w = DecodeResult.ok k pcm → k ≤ w.length) ∧
    (∀ w k, c6x.decode w = DecodeResult.err k → k ≤ w.length) := by
  refine ⟨by decide, ?_, ?_⟩
  · intro w k pcm hx
    simp [c6x] at hx
  · intro w k hx
    simp only [c6x] at hx
    cases hx
    omega

/-- C7 (amended): the metadata is latched at the first successful frame-header
parse - possibly a frame whose decode then fails - and once the latch has fired
no later pass changes the latched values or re-arms the latch. -/
theorem C7_metadata_immutable {σ : Type} (c : Codec)
    (cb : Option (σ → List Int → Nat → MP3Info → Bool × σ)) (fuel : Nat)
    (s : StreamState) (p : σ) (h : s.firstFrame = false) :
    (streamRun c cb fuel s p).2.1.info = s.info ∧
    (streamRun c cb fuel s p).2.1.firstFrame = false :=
  streamRun_latched c cb fuel s p h

/-- C7 witness: five passes from a latched mid-stream state. -/
theorem C7_metadata_immutable_witness :
    (streamRun trivialCodec (none : Option (Unit → List Int → Nat → MP3Info → Bool × Unit))
      5 witState ()).2.1.info = witState.info ∧
    (streamRun trivialCodec (none : Option (Unit → List Int → Nat → MP3Info → Bool × Unit))
      5 witState ()).2.1.firstFrame = false :=
  C7_metadata_immutable trivialCodec none 5 witState () rfl

/-- C7 counterexample: the first frame parses with sample rate 11025 but fails
to decode; the next frame parses with 44100 and decodes successfully. The
latched metadata is 11025 - taken from the frame whose decode failed, not from
the first successful decode - refuting the claim that latching happens at the
first successful frame decode and that no failed-decode frame sets it. -/
theorem C7_counterexample :
    processStreamFrame c7codec (none : Option (Unit → List Int → Nat → MP3Info → Bool × Unit))
        s7 () =
      (Outcome.ret true,
       { window := [], cursor := 6, source := [], firstFrame := false,
         info := { sampleRate := 11025, channels := 1, bitRate := 64,
                   duration := 0, valid := true },
         streaming := true }, ()) ∧
    c7codec.decode s7.window = DecodeResult.err 0 ∧
    (11025 : Int) ≠ 44100 := by
  decide

/-- C8 (amended): every frame forwarded to the sink increments processedFrames,
so it is non-decreasing across the session; but the progress observer is never
invoked during playFileWithProgress - estimatedTotalFrames stays 0 for the whole
session, so the guarded report never fires and the reported list stays empty
(vacuously, every reported fraction is at most 1). -/
theorem C8_progress (c : Codec) (sinkOk : Nat → Bool) (src : List Nat) (vol : ℚ)
    (hcb : Bool) :
    (playFileWithProgress c sinkOk src vol hcb).2.reported = [] ∧
    ∀ (q : PlayerState) (pcm : List Int) (n : Nat) (inf : MP3Info),
      q.processedFrames ≤ (streamingCallback sinkOk q pcm n inf).2.processedFrames := by
  constructor
  · have hpres : ∀ (q : PlayerState) (pcm : List Int) (n : Nat) (inf : MP3Info),
        (q.totalFrames = 0 ∧ q.reported = []) →
        ((streamingCallback sinkOk q pcm n inf).2.totalFrames = 0 ∧
         (streamingCallback sinkOk q pcm n inf).2.reported = []) := by
      intro q pcm n inf hq
      obtain ⟨h1, h2⟩ := hq
      simp only [streamingCallback]
      split_ifs with g1 g2 g3
      · exact ⟨h1, h2⟩
      · exact ⟨h1, h2⟩
      · exfalso
        have g4 := g3.2
        omega
      · exact ⟨h1, h2⟩
    unfold playFileWithProgress
    cases hs : startStreaming c src with
    | none => rfl
    | some s0 =>
        have hP := playLoop_player_pres c sinkOk
          (fun q => q.totalFrames = 0 ∧ q.reported = []) hpres (streamFuel s0) s0
          { playing := true, volume := constrain vol 0 1, hasCb := hcb,
            totalFrames := 0, processedFrames := 0, reported := [],
            writeCount := 0, writeErrorSeen := false } ⟨rfl, rfl⟩
        exact hP.2
  · intro q pcm n inf
    simp only [streamingCallback]
    split_ifs
    all_goals try dsimp only
    all_goals omega

/-- C8 counterexample: a run that forwards one frame with a progress observer
supplied - processedFrames reaches 1 but the observer is never invoked (the
reported list stays empty), refuting the part of the claim that says the
progress observer is invoked whenever one was supplied. -/
theorem C8_counterexample :
    (playFileWithProgress c1codec (fun _ => true) c1src 1 true).2.processedFrames = 1 ∧
    (playFileWithProgress c1codec (fun _ => true) c1src 1 true).2.reported = [] := by
  decide

/-- C9 (amended): stop() does more than set the stop flag - it clears the
playing flag and also tears the streamer down on the spot (stops streaming,
releasing buffer and source). Once stop has been observed at a frame boundary,
the playback loop does nothing further and the callback refuses every
subsequent frame, so no frame is forwarded to the sink after the flag is seen. -/
theorem C9_stop_behavior (p : PlayerState) (s : StreamState) (hp : p.playing = true) :
    (stop p s).1.playing = false ∧
    (stop p s).2.streaming = false ∧
    (∀ (c : Codec) (sinkOk : Nat → Bool) (fuel : Nat),
      playLoop c sinkOk fuel (stop p s).2 (stop p s).1 = ((stop p s).1, (stop p s).2)) ∧
    (∀ (sinkOk : Nat → Bool) (pcm : List Int) (n : Nat) (inf : MP3Info),
      streamingCallback sinkOk (stop p s).1 pcm n inf = (false, (stop p s).1)) := by
  unfold stop
  rw [if_pos hp]
  refine ⟨rfl, ?_, ?_, ?_⟩
  · by_cases hs : s.streaming = true
    · simp [hs, stopStreaming]
    · simp only [Bool.not_eq_true] at hs
      simp [hs]
  · intro c sinkOk fuel
    cases fuel with
    | zero => rfl
    | succ n => simp [playLoop]
  · intro sinkOk pcm n inf
    unfold streamingCallback
    rw [if_pos (Or.inl rfl)]

/-- C9 witness: stopping a playing session over a live streamer. -/
theorem C9_stop_behavior_witness :
    (stop p9 s9).1.playing = false ∧
    (stop p9 s9).2.streaming = false ∧
    (∀ (c : Codec) (sinkOk : Nat → Bool) (fuel : Nat),
      playLoop c sinkOk fuel (stop p9 s9).2 (stop p9 s9).1 = ((stop p9 s9).1, (stop p9 s9).2)) ∧
    (∀ (sinkOk : Nat → Bool) (pcm : List Int) (n : Nat) (inf : MP3Info),
      streamingCallback sinkOk (stop p9 s9).1 pcm n inf = (false, (stop p9 s9).1)) :=
  C9_stop_behavior p9 s9 rfl

/-- C9 counterexample: stop() does not merely set the stop flag - it mutates the
decoder state immediately (the streamer is torn down), refuting the part of
the claim that says stop() only sets the stop flag. -/
theorem C9_counterexample : (stop p9 s9).2 ≠ s9 := by
  decide

/-- C10 (amended): the skip after a frame-info error always executes with at
least two unread bytes (the sync pattern itself lies within the window), and no
pass wraps the bytesLeft counter provided the codec consumes strictly fewer
bytes than the window holds when it reports a decode error. A codec that
consumes the whole window on error breaches this - see the counterexample. -/
theorem C10_skip_no_wrap {σ : Type} (c : Codec)
    (herr : ∀ w k, c.decode w = DecodeResult.err k → k < w.length)
    (cb : Option (σ → List Int → Nat → MP3Info → Bool × σ)) (s : StreamState) (p : σ) :
    (streamStep c cb s p).isWrap = false ∧
    (∀ off, findSyncWord s.window = some off → 2 ≤ (s.window.drop off).length) :=
  ⟨streamStep_no_wrap c herr cb s p, fun off hoff => by
     have hb := findSyncWord_bound s.window off hoff
     simp only [List.length_drop]
     omega⟩

/-- C10 witness: a pass over a mid-stream state with an underflow-only codec. -/
theorem C10_skip_no_wrap_witness :
    (streamStep trivialCodec (none : Option (Unit → List Int → Nat → MP3Info → Bool × Unit))
      witState ()).isWrap = false ∧
    (∀ off, findSyncWord witState.window = some off → 2 ≤ (witState.window.drop off).length) :=
  C10_skip_no_wrap trivialCodec (fun w k hx => by simp [trivialCodec] at hx) none witState ()

/-- C10 counterexample: a codec that consumes the entire window while reporting
a decode error (still a prefix, as the contract allows) makes the forced
one-byte skip execute with bytesLeft = 0 - the unsigned decrement wraps,
refuting the claim that the count is always strictly positive at that point. -/
theorem C10_counterexample :
    (streamStep c10x (none : Option (Unit → List Int → Nat → MP3Info → Bool × Unit))
      s10 ()).isWrap = true ∧
    (∀ w k, c10x.decode w = DecodeResult.err k → k ≤ w.length) := by
  refine ⟨by decide, ?_⟩
  intro w k hx
  simp only [c10x] at hx
  cases hx
  omega

end ESP32Speaker
